import Mathlib

/-! Shallow embedding of the RAG query orchestrator of
`src/services/ragQueryService.ts` (class `RAGQueryService`), together with
proofs settling the specification claims against it.

External collaborators (embedding provider, vector search RPC, the
`legalrnd_documents` / `legalrnd_masters` metadata store, the completion
endpoint, storage signing and the usage-log sink) are modelled as an
explicit environment of pure oracles; one `askQuestion` run is then a pure
function of the question, the options and that environment.

JavaScript-specific semantics (truthiness of `||` and of conditions,
regex matching, `Array.prototype.sort` stability, `String.prototype.split`)
are modelled explicitly by small helper functions, each documented at its
definition. -/

/-- JavaScript `x || d` on an optional number: `undefined` and `0` are falsy. -/
def jsNatOr (x : Option Nat) (d : Nat) : Nat :=
  match x with
  | none => d
  | some n => if n = 0 then d else n

/-- JavaScript `x || d` on an optional rational (models JS number): `undefined` and `0` are falsy. -/
def jsRatOr (x : Option ℚ) (d : ℚ) : ℚ :=
  match x with
  | none => d
  | some c => if c = 0 then d else c

/-- JavaScript `x || null` on an optional string: `undefined` and `""` are falsy. -/
def jsStrOrNull (x : Option String) : Option String :=
  match x with
  | none => none
  | some s => if s = "" then none else some s

/-- JavaScript `x || null` on an optional number: `undefined` and `0` are falsy. -/
def jsNatOrNull (x : Option Nat) : Option Nat :=
  match x with
  | none => none
  | some n => if n = 0 then none else some n

/-- JavaScript `x || d` on an optional string: `undefined` and `""` are falsy. -/
def jsStrOr (x : Option String) (d : String) : String :=
  match x with
  | none => d
  | some s => if s = "" then d else s

/-- JavaScript `a || b` on two optional strings (`lawyerId || preceptorId`). -/
def jsStrOrOpt (a b : Option String) : Option String :=
  match a with
  | none => b
  | some s => if s = "" then b else some s

/-- JS `toLowerCase` on the ASCII strings handled here. -/
def jsToLower (s : String) : String := String.mk (s.data.map Char.toLower)

/-- Case-sensitive prefix test on character lists. -/
def isPrefixChars : List Char → List Char → Bool
  | [], _ => true
  | _ :: _, [] => false
  | c :: cs, d :: ds => c = d && isPrefixChars cs ds

/-- Case-insensitive prefix match; on success returns the remaining characters. -/
def matchCI : List Char → List Char → Option (List Char)
  | [], s => some s
  | _ :: _, [] => none
  | c :: cs, d :: ds => if c.toLower = d.toLower then matchCI cs ds else none

/-- Case-sensitive substring test (JS `String.prototype.includes`). -/
def containsChars (needle : List Char) : List Char → Bool
  | [] => needle.isEmpty
  | c :: cs => isPrefixChars needle (c :: cs) || containsChars needle cs

/-- JS `hay.includes(pat)`. -/
def strContains (hay pat : String) : Bool := containsChars pat.data hay.data

/-- Case-insensitive substring test (models `/word/i.test(s)` for a plain word pattern). -/
def containsCI (hay pat : String) : Bool :=
  containsChars (jsToLower pat).data (jsToLower hay).data

/-- JS regex word-character class `\w`, i.e. `[A-Za-z0-9_]`. -/
def wordChar (c : Char) : Bool := c.isAlpha || c.isDigit || c = '_'

/-- Word-boundary test on the left of a candidate match. -/
def boundaryBefore (prev : Option Char) : Bool :=
  match prev with
  | none => true
  | some c => !wordChar c

/-- Word-boundary test on the right of a candidate match. -/
def boundaryAfter : List Char → Bool
  | [] => true
  | c :: _ => !wordChar c

/-- Scan for a case-insensitive `\b word \b` match, tracking the previous character. -/
def containsWordCIAux (w : List Char) : Option Char → List Char → Bool
  | prev, [] =>
    boundaryBefore prev &&
      (match matchCI w [] with
       | some rest => boundaryAfter rest
       | none => false)
  | prev, c :: cs =>
    (boundaryBefore prev &&
      (match matchCI w (c :: cs) with
       | some rest => boundaryAfter rest
       | none => false))
    || containsWordCIAux w (some c) cs

/-- Models `/\b(word)\b/i.test(s)` for one alternative `word`. -/
def containsWordCI (s w : String) : Bool := containsWordCIAux w.data none s.data

/-- JS `s.replace(/pat/i, repl)` for a literal pattern: replace the first
case-insensitive occurrence, if any. -/
def replaceFirstCIChars (pat repl : List Char) : List Char → List Char
  | [] => []
  | c :: cs =>
    match matchCI pat (c :: cs) with
    | some rest => repl ++ rest
    | none => c :: replaceFirstCIChars pat repl cs

/-- String wrapper for `replaceFirstCIChars`. -/
def replaceFirstCI (s pat repl : String) : String :=
  String.mk (replaceFirstCIChars pat.data repl.data s.data)

/-- Alternatives of the connector-word regex, in regex alternation order. -/
def connectorWords : List (List Char) :=
  ["explain", "in", "very", "simple", "words", "about", "the"].map String.data

/-- First alternative matching case-insensitively at the head of `s`
(JS alternation order is leftmost-first, not longest); returns its length. -/
def matchAltLen (words : List (List Char)) (s : List Char) : Option Nat :=
  words.findSome? (fun w => (matchCI w s).map (fun _ => w.length))

/-- JS `s.replace(/explain|in|very|simple|words|about|the/gi, "")`:
every occurrence of an alternative is deleted, scanning left to right. The
scan consumes at least one character per step, so structural recursion on a
fuel of the input length covers the whole input. -/
def stripConnectorFuel : Nat → List Char → List Char
  | 0, s => s
  | _ + 1, [] => []
  | fuel + 1, c :: cs =>
    match matchAltLen connectorWords (c :: cs) with
    | some n => stripConnectorFuel fuel (cs.drop (n - 1))
    | none => c :: stripConnectorFuel fuel cs

/-- String wrapper for `stripConnectorFuel`. -/
def stripConnectors (s : String) : String :=
  String.mk (stripConnectorFuel s.data.length s.data)

/-- JS `\s` whitespace test (ASCII coverage). -/
def isWs (c : Char) : Bool :=
  c = ' ' || c = '\t' || c = '\n' || c = '\r' || c = '\x0b' || c = '\x0c'

/-- Number of maximal whitespace runs, given whether a run is currently open. -/
def wsRunsAux : Bool → List Char → Nat
  | _, [] => 0
  | inWs, c :: cs =>
    if isWs c then (if inWs then 0 else 1) + wsRunsAux true cs
    else wsRunsAux false cs

/-- Number of parts of JS `text.split(/\s+/)`: one more than the number of
whitespace runs (leading/trailing runs contribute empty parts, as in JS). -/
def jsSplitWsCount (s : String) : Nat := 1 + wsRunsAux false s.data

/-- The fixed two-part separator token of the prompt contract. -/
def SECTION_SEPARATOR : String := "---SECTION_SEPARATOR---"

/-- Characters of the separator. -/
def sepChars : List Char := SECTION_SEPARATOR.data

/-- JS `s.split("---SECTION_SEPARATOR---")`, accumulator-based: a separator
occurrence closes the current part. The scan consumes at least one character
per step, so structural recursion on a fuel of the input length covers the
whole input. -/
def splitSepFuel : Nat → List Char → List Char → List (List Char)
  | 0, acc, rest => [acc.reverse ++ rest]
  | _ + 1, acc, [] => [acc.reverse]
  | fuel + 1, acc, c :: cs =>
    if isPrefixChars sepChars (c :: cs) then
      acc.reverse :: splitSepFuel fuel [] (cs.drop (sepChars.length - 1))
    else
      splitSepFuel fuel (c :: acc) cs

/-- JS `s.split("---SECTION_SEPARATOR---")`. -/
def jsSplitSep (s : String) : List String :=
  (splitSepFuel s.data.length [] s.data).map String.mk

/-- Lazy match of `/^(.*?)(\n\n|$)/s`: the text up to the first blank line
(the whole text when there is none). -/
def firstParaChars : List Char → List Char
  | '\n' :: '\n' :: _ => []
  | c :: cs => c :: firstParaChars cs
  | [] => []

/-- String wrapper for `firstParaChars`. -/
def firstParagraph (s : String) : String := String.mk (firstParaChars s.data)

/-- Index of the first `**` with no line break before it: the reach of the
lazy `.*?\*\*` fragment of `/^\*\*PART n:.*?\*\*/i` (no `/s` flag, so `.`
stops at line breaks). -/
def findStarsSameLine : List Char → Option Nat
  | '*' :: '*' :: _ => some 0
  | c :: cs => if c = '\n' || c = '\r' then none else (findStarsSameLine cs).map (· + 1)
  | [] => none

/-- JS `s.replace(/^\*\*PART n:.*?\*\*/i, "")` where `pre` is the literal
head of the pattern, e.g. `"**PART 1:"`. -/
def stripPartLabel (pre : String) (s : String) : String :=
  match matchCI pre.data s.data with
  | some rest =>
    match findStarsSameLine rest with
    | some k => String.mk (rest.drop (k + 2))
    | none => s
  | none => s

/-- JS `s.endsWith(suffix)`. -/
def strEndsWith (s suf : String) : Bool := isPrefixChars suf.data.reverse s.data.reverse

/-- JS `String.prototype.trim`: strip leading and trailing whitespace. -/
def jsTrim (s : String) : String :=
  String.mk (((s.data.dropWhile Char.isWhitespace).reverse.dropWhile Char.isWhitespace).reverse)

/-- JS `s.substring(0, n)`. -/
def strTake (s : String) (n : Nat) : String := String.mk (s.data.take n)

/-- A retrieved chunk row (the dynamically-typed rows of
`match_legalrnd_chunks` plus the fields later joined onto them). -/
structure Chunk where
  id : String
  document_id : String
  document_title : String
  master_name : String
  content : String
  similarity : Option ℚ := none
  page_number : Option Nat := none
  position : Option Nat := none
  chapter : Option String := none
  youtube_video_id : Option String := none
  start_timestamp : Option Nat := none
  end_timestamp : Option Nat := none
  file_path : Option String := none
  file_type : Option String := none
deriving DecidableEq, Repr

/-- The `Citation` record built for each chunk of a successful generation. -/
structure Citation where
  document_id : String
  document_title : String
  master_name : String
  page_number : Option Nat
  chunk_id : String
  quote : String
  full_content : String
  similarity : Option ℚ
  position_in_document : Nat
  chapter : Option String
  youtube_video_id : Option String
  start_timestamp : Option Nat
  end_timestamp : Option Nat
  file_url : Option String
  file_type : Option String
deriving DecidableEq, Repr

/-- `reading_time` of a response. -/
structure ReadingTime where
  summary : String
  detail : String
deriving DecidableEq, Repr

/-- `metadata` of a successful response. -/
structure RespMetadata where
  model : String
  chunkCount : Nat
  embeddingModel : String
  totalTokens : Option Nat
deriving DecidableEq, Repr

/-- `tokenUsage` of a successful response. -/
structure TokenUsage where
  embeddingTokens : Nat
  promptTokens : Nat
  completionTokens : Nat
  totalTokens : Nat
  grandTotal : Nat
deriving DecidableEq, Repr

/-- `debug` prompts of a successful response. -/
structure DebugPrompts where
  systemPrompt : String
  userPrompt : String
deriving DecidableEq, Repr

/-- The `RAGResponse` result type of `askQuestion`. -/
structure RAGResponse where
  success : Bool
  answer : Option String := none
  summary : Option String := none
  citations : Option (List Citation) := none
  reading_time : Option ReadingTime := none
  message : Option String := none
  metadata : Option RespMetadata := none
  debug : Option DebugPrompts := none
  rawResponse : Option String := none
  tokenUsage : Option TokenUsage := none
  estimatedCost : Option ℚ := none
deriving DecidableEq, Repr

/-- Result of the embedding provider: `{embedding, tokenCount}`. -/
structure EmbedResult where
  embedding : List ℚ
  tokenCount : Nat
deriving DecidableEq, Repr

/-- A row of the `legalrnd_documents` lookup keyed by master/category names
(only `id` is consumed by the filter). -/
structure DocRow where
  id : String
deriving DecidableEq, Repr

/-- A row of the `legalrnd_documents` lookup keyed by document ids
(`id, title, file_path, file_type`). -/
structure DocMeta where
  id : String
  title : String
  file_path : Option String := none
  file_type : Option String := none
deriving DecidableEq, Repr

/-- A row of the fallback query on `legalrnd_document_chunks` with its
joined `legalrnd_documents` record. -/
structure FallbackRow where
  chunk : Chunk
  doc_file_path : Option String := none
  doc_file_type : Option String := none
deriving DecidableEq, Repr

/-- Parsed payload of a successful completion call (`data.choices[0].message.content`
plus `data.usage`). -/
structure CompletionData where
  content : String
  prompt_tokens : Option Nat := none
  completion_tokens : Option Nat := none
  total_tokens : Option Nat := none
deriving DecidableEq, Repr

/-- One failed attempt of the model fallback chain (spec `ModelAttempt`
with `outcome = failure`; the source records it via `lastError` and a log line). -/
structure ModelAttempt where
  model : String
  error : String
deriving DecidableEq, Repr

/-- The usage record inserted into `legalrnd_ai_usage_log` (the `created_at`
wall-clock timestamp is outside the model). -/
structure UsageLogEntry where
  lawyer_id : Option String
  model : String
  prompt_tokens : Nat
  completion_tokens : Nat
  total_tokens : Nat
  estimated_cost : ℚ
  operation_type : String
  query_text : String
  documents_used : List String
  response_preview : Option String
deriving DecidableEq, Repr

/-- The external collaborators of one `askQuestion` run, as pure oracles:
embedding provider, vector search (keyed by the query embedding), the two
metadata lookups, the fallback chunk query (`none` models a null `data`),
the completion endpoint keyed by model id, and storage signing. -/
structure Env where
  embed : String → EmbedResult
  search : List ℚ → Option (List Chunk)
  mastersLookup : List String → Option (List DocRow)
  docsLookup : List String → Option (List DocMeta)
  fallbackRows : Option (List FallbackRow)
  completion : String → Except String CompletionData
  signUrl : String → Nat → Option String

/-- Options of `askQuestion`. -/
structure AskOptions where
  lawyerId : Option String := none
  preceptorId : Option String := none
  selectedDocumentIds : Option (List String) := none
  selectedMasters : Option (List String) := none
  sessionId : Option String := none
deriving DecidableEq, Repr

/-- Which external calls a run made (instrumentation of the control flow:
the embedding calls, the number of vector searches, the completion calls in
order, whether `getFallbackChunks` ran, and the usage record handed to the
logging sink, when any). -/
structure Trace where
  embedCalls : List String
  searchCalls : Nat
  completionCalls : List String
  fallbackCalled : Bool
  loggedEntry : Option UsageLogEntry
deriving DecidableEq, Repr

/-- The empty trace: no external call was made. -/
def Trace.empty : Trace :=
  { embedCalls := [], searchCalls := 0, completionCalls := [], fallbackCalled := false,
    loggedEntry := none }

/-- The model priority list (`modelPriority`). -/
def modelPriority : List String :=
  ["x-ai/grok-4.1-fast", "x-ai/grok-4-fast", "x-ai/grok-4", "x-ai/grok-2-1212",
   "x-ai/grok-beta", "google/gemini-2.0-flash-exp:free", "anthropic/claude-3-haiku",
   "meta-llama/llama-3.1-8b-instruct:free"]

/-- The `costPer1M` cost table of `estimateCost` (cost per million tokens). -/
def costPer1M (model : String) : Option ℚ :=
  if model = "x-ai/grok-2-1212" then some 2
  else if model = "x-ai/grok-beta" then some 2
  else if model = "google/gemini-2.0-flash-exp:free" then some 0
  else if model = "anthropic/claude-3-haiku" then some (1/4)
  else if model = "meta-llama/llama-3.1-8b-instruct:free" then some 0
  else none

/-- `estimateCost(model, tokens)`. The source computes
`const modelCost = costPer1M[model] || 1.0`, so a configured `0` rate is
falsy in JS and falls back to the `1.0` default, exactly like an unknown
model; `jsRatOr` reproduces that. -/
def estimateCost (model : String) (tokens : Nat) : ℚ :=
  (tokens : ℚ) / 1000000 * jsRatOr (costPer1M model) 1

/-- `calculateReadingTime(text)`: word count at 200 wpm, rounded up, with an
under-one-minute label. The JS word count is the part count of
`text.split(/\s+/)`. -/
def calculateReadingTime (text : String) : String :=
  let wordCount := jsSplitWsCount text
  if wordCount < 200 then "< 1 min read"
  else toString ((wordCount + 199) / 200) ++ " min read"

/-- Result of `parseModelResponse`. -/
structure ParsedResponse where
  summary : String
  answer : String
  readingTime : ReadingTime
deriving DecidableEq, Repr

/-- `parseModelResponse(rawContent)`: split on the separator; with two or
more parts, part 0 (label-stripped, trimmed) is the summary and part 1 the
answer; otherwise the whole trimmed text is the answer and the summary is
the first paragraph when shorter than 500 characters, else a placeholder. -/
def parseModelResponse (rawContent : String) : ParsedResponse :=
  let parts := jsSplitSep rawContent
  if 2 ≤ parts.length then
    let summary0 := jsTrim ((parts.get? 0).getD "")
    let answer0 := jsTrim ((parts.get? 1).getD "")
    let summary := jsTrim (stripPartLabel "**PART 1:" summary0)
    let answer := jsTrim (stripPartLabel "**PART 2:" answer0)
    { summary := summary, answer := answer,
      readingTime := { summary := calculateReadingTime summary,
                       detail := calculateReadingTime answer } }
  else
    let answer := jsTrim rawContent
    let firstPara := firstParagraph answer
    let summary :=
      if firstPara.length < 500 then jsTrim firstPara
      else "Please refer to the detailed answer below."
    { summary := summary, answer := answer,
      readingTime := { summary := calculateReadingTime summary,
                       detail := calculateReadingTime answer } }

/-- The `/simple|basic|beginner|introduction|explain|overview/i` test of
`generateSearchQueries` and `generateResponseWithFallback`. -/
def needsSimpleTest (q : String) : Bool :=
  containsCI q "simple" || containsCI q "basic" || containsCI q "beginner" ||
  containsCI q "introduction" || containsCI q "explain" || containsCI q "overview"

/-- `generateSearchQueries(originalQuery)`: the original query plus derived
variants, in the fixed rule order of the source. -/
def generateSearchQueries (originalQuery : String) : List String :=
  let lowerQuery := jsToLower originalQuery
  let needsSimple := needsSimpleTest originalQuery
  let topic :=
    if strContains lowerQuery "explain" then jsTrim (stripConnectors originalQuery)
    else originalQuery
  let queries := [originalQuery]
  let queries :=
    if needsSimple && topic ≠ "" then
      queries ++ ["introduction to " ++ topic, topic ++ " basics", "what is " ++ topic,
                  topic ++ " for beginners", topic ++ " overview"]
    else queries
  let queries := queries ++ [originalQuery ++ " in Heartfulness meditation spiritual practice"]
  let queries :=
    if strContains lowerQuery "what is" then
      queries ++ [replaceFirstCI originalQuery "what is" "meaning of",
                  replaceFirstCI originalQuery "what is" "introduction to"]
    else queries
  let queries :=
    if strContains lowerQuery "how to" then
      queries ++ [replaceFirstCI originalQuery "how to" "practice of",
                  replaceFirstCI originalQuery "how to" "method for"]
    else queries
  let queries :=
    if strContains lowerQuery "why" then
      queries ++ [replaceFirstCI originalQuery "why" "reason for",
                  replaceFirstCI originalQuery "why" "purpose of"]
    else queries
  queries

/-- Result of `validateQuestion`. -/
structure ValidationResult where
  isValid : Bool
  message : Option String := none
deriving DecidableEq, Repr

/-- The `\b`-anchored inappropriate-content word alternatives. -/
def inappropriateWords : List String :=
  ["hack", "crack", "exploit", "attack", "malware", "virus",
   "porn", "xxx", "sex",
   "kill", "murder", "death", "suicide"]

/-- The off-topic keyword list (plain lower-case substring test). -/
def offTopicKeywords : List String :=
  ["sports", "politics", "movie", "game", "recipe", "weather"]

/-- `validateQuestion(question)`: length bounds on the trimmed text, then the
inappropriate-content patterns, then the off-topic keywords. -/
def validateQuestion (question : String) : ValidationResult :=
  if (jsTrim question).length < 5 then
    { isValid := false, message := some "Please ask a more detailed question." }
  else if (jsTrim question).length > 5000 then
    { isValid := false,
      message := some "Your question is too long. Please keep it under 5000 characters." }
  else if inappropriateWords.any (fun w => containsWordCI question w) then
    { isValid := false,
      message := some "🙏 Please ask questions related to spirituality, meditation, and Heartfulness teachings." }
  else if offTopicKeywords.any (fun k => strContains (jsToLower question) k) then
    { isValid := false,
      message := some "⚖️ I am here to help with legal research questions about Indian law. Please ask questions related to legal topics, case law, statutes, and judicial precedents." }
  else
    { isValid := true }

/-- Sort key of the dedup sort: `chunk.similarity || 0`. -/
def simKey (c : Chunk) : ℚ := (c.similarity).getD 0

/-- Descending-similarity relation of the comparator
`(a, b) => (b.similarity || 0) - (a.similarity || 0)`. -/
def simGE (a b : Chunk) : Prop := simKey b ≤ simKey a

instance : DecidableRel simGE := fun a b => inferInstanceAs (Decidable (simKey b ≤ simKey a))

instance : IsTotal Chunk simGE := ⟨fun a b => (le_total (simKey b) (simKey a)).imp id id⟩

instance : IsTrans Chunk simGE := ⟨fun _ _ _ h1 h2 => le_trans h2 h1⟩

/-- The `filter` pass of `deduplicateChunks`: keep a chunk only when its id
was not seen before (first occurrence wins). -/
def dedupFirstAux : List Chunk → List String → List Chunk
  | [], _ => []
  | c :: cs, seen =>
    if c.id ∈ seen then dedupFirstAux cs seen
    else c :: dedupFirstAux cs (c.id :: seen)

/-- `deduplicateChunks(chunks)`: drop later duplicates by `id`, then sort
descending by `similarity || 0`. JS `Array.prototype.sort` is stable, which
any stable sort reproduces exactly; `List.insertionSort` is stable. -/
def deduplicateChunks (chunks : List Chunk) : List Chunk :=
  List.insertionSort simGE (dedupFirstAux chunks [])

/-- First-seen insertion-ordered dedup of a string list (`[...new Set(xs)]`). -/
def dedupStrings (l : List String) : List String :=
  l.foldl (fun acc s => if s ∈ acc then acc else acc ++ [s]) []

/-- The document allow-list filter of `askQuestion`
(`selectedDocumentIds && selectedDocumentIds.length > 0`). -/
def docScopeFilter (selectedDocumentIds : Option (List String)) (chunks : List Chunk) :
    List Chunk :=
  match selectedDocumentIds with
  | none => chunks
  | some ids =>
    if ids.length > 0 then chunks.filter (fun c => ids.contains c.document_id)
    else chunks

/-- The category (masters) allow-list filter of `askQuestion`: runs only when
the list is non-empty and chunks remain; inside, filtering happens only when
the lookup returned a data payload (`if (documents)`), with the permitted id
set taken from the returned rows. -/
def masterScopeFilter (env : Env) (selectedMasters : Option (List String))
    (chunks : List Chunk) : List Chunk :=
  match selectedMasters with
  | none => chunks
  | some ms =>
    if ms.length > 0 && chunks.length > 0 then
      match env.mastersLookup ms with
      | some documents =>
        let allowedDocIds := documents.map (fun d => d.id)
        chunks.filter (fun c => allowedDocIds.contains c.document_id)
      | none => chunks
    else chunks

/-- `enhanceChunksWithDocumentContext(chunks)`: join document metadata onto
each chunk; a null lookup returns the chunks untouched. The JS `Map` keeps
the last entry for a duplicated key, hence the reversed `find?`. -/
def enhanceChunksWithDocumentContext (env : Env) (chunks : List Chunk) : List Chunk :=
  let documentIds := dedupStrings (chunks.map (fun c => c.document_id))
  match env.docsLookup documentIds with
  | none => chunks
  | some documents =>
    chunks.map (fun c =>
      let doc := documents.reverse.find? (fun d => d.id == c.document_id)
      { c with file_path := doc.bind (fun d => d.file_path),
               file_type := doc.bind (fun d => d.file_type) })

/-- `getFallbackChunks()`: the recent-chunk rows (`chunks || []`), each
flattened with its joined document's file fields. -/
def getFallbackChunks (env : Env) : List Chunk :=
  match env.fallbackRows with
  | none => []
  | some rows =>
    rows.map (fun r =>
      { r.chunk with file_path := r.doc_file_path, file_type := r.doc_file_type })

/-- Percentage formatting `(q * 100).toFixed(0)` for the non-negative
similarity values: round to nearest, ties up. -/
def pctFixed0 (q : ℚ) : String := toString (Rat.floor (q * 100 + 1/2))

/-- The `[Source N]` line built for the chunk at (0-based) index `idx` of the
prompt context. -/
def sourceLine (idx : Nat) (chunk : Chunk) : String :=
  let pageInfo :=
    match chunk.page_number with
    | some p => if p = 0 then "" else ", page " ++ toString p
    | none => ""
  let similarity :=
    match chunk.similarity with
    | some s => if s = 0 then "" else " (relevance: " ++ pctFixed0 s ++ "%)"
    | none => ""
  "[Source " ++ toString (idx + 1) ++ "] From \"" ++ chunk.document_title ++ "\" by "
    ++ chunk.master_name ++ pageInfo ++ similarity ++ ":\n\"" ++ chunk.content ++ "\""

/-- The `[Source N]` lines for the chunks starting at index `idx`. -/
def sourceLines (idx : Nat) : List Chunk → List String
  | [] => []
  | c :: cs => sourceLine idx c :: sourceLines (idx + 1) cs

/-- JS `Array.prototype.join(sep)`. -/
def joinSep (sep : String) : List String → String
  | [] => ""
  | [s] => s
  | s :: rest => s ++ sep ++ joinSep sep rest

/-- The prompt context: the `[Source N]` lines joined by blank lines. -/
def buildContext (chunks : List Chunk) : String := joinSep "\n\n" (sourceLines 0 chunks)

/-- The system-prompt text before the simple-mode interpolation point. -/
def sysPromptHead : String :=
  "🛑 **OUTPUT FORMAT INSTRUCTIONS (CRITICAL)**:\n" ++
  "You must structure your entire response into TWO DISTINCT PARTS separated by exactly \"---SECTION_SEPARATOR---\".\n" ++
  "\n" ++
  "**PART 1: BRIEF SUMMARY**\n" ++
  "- Provide a concise summary of the answer in a single paragraph (5-6 sentences).\n" ++
  "- Estimate reading time: ~30 seconds.\n" ++
  "- Do NOT use any markdown headers (like # or ##) in this part. Just plain text.\n" ++
  "\n" ++
  "---SECTION_SEPARATOR---\n" ++
  "\n" ++
  "**PART 2: DETAILED ANSWER**\n" ++
  "- This is the main response following all the standard formatting rules below (Legal Issue, Applicable Law, Judicial Precedents, etc.).\n" ++
  "- This part must match the \"ANSWER STRUCTURE\" template exactly.\n" ++
  "\n" ++
  "You are Veritas - an expert legal AI assistant specializing in Indian law. Your task is to create clear, well-structured, and comprehensive legal analysis based on the provided sources.\n" ++
  "\n" ++
  "🌐 **LANGUAGE REQUIREMENT (CRITICAL):**\n" ++
  "- ALWAYS respond in the SAME LANGUAGE as the question\n" ++
  "- If the question is in Hindi, answer in Hindi\n" ++
  "- If the question is in English, answer in English\n" ++
  "- If the question is in any other language, answer in that language\n" ++
  "- Maintain the same language throughout your entire response\n" ++
  "\n" ++
  "⚖️ **LEGAL CONTENT GUIDELINES (CRITICAL):**\n" ++
  "- Answer ONLY using provided legal documents - NEVER fabricate case law\n" ++
  "- Include [Source X] citations after key legal points\n" ++
  "- Extract ratio decidendi (binding principle) and obiter dicta (observations) when available\n" ++
  "- **ANTI-HALLUCINATION RULES**:\n" ++
  "  * NEVER invent case names, citations, judges, or legal provisions\n" ++
  "  * ONLY cite cases/laws explicitly present in provided sources\n" ++
  "  * If uncertain, say \"Based on available documents...\" or \"I don\x27t have verified information...\"\n" ++
  "  * Always end with: \"⚠️ Please verify this legal analysis from official law reports before relying on it in court.\"\n" ++
  "\n" ++
  "📋 **FORMATTING REQUIREMENTS (CRITICAL):**\n" ++
  "- Start with a clear legal issue statement\n" ++
  "- Use markdown headers (##, ###) for main sections\n" ++
  "- Use numbered lists (1. 2. 3.) for legal provisions, articles, sections\n" ++
  "- Use bullet points (-) for case law, precedents, legal principles\n" ++
  "- Use **bold** for case names, statutes, and key legal terms\n" ++
  "- Keep paragraphs short (2-3 sentences max)\n" ++
  "- Create a logical flow: Legal Issue → Applicable Law → Judicial Precedents → Reasoning → Conclusion\n" ++
  "\n" ++
  "📖 **CONTENT GUIDELINES:**\n" ++
  "- Synthesize information from multiple legal sources into a coherent legal analysis\n" ++
  "- Include [Source X] citations after key legal points or case citations\n" ++
  "- Extract holdings, dicta, and dissenting opinions when available\n" ++
  "- Distinguish between binding precedents and persuasive authority\n" ++
  "- Note any conflicting decisions or legal controversies\n"

/-- The simple-explanation block interpolated when the question asks for a
simple answer. -/
def simpleModeBlock : String :=
  "\n⭐ **SIMPLE EXPLANATION MODE (ACTIVE):**\n" ++
  "- Use everyday language while maintaining legal accuracy\n" ++
  "- Explain legal terms immediately when first used (e.g., \"ratio decidendi - the binding legal principle\")\n" ++
  "- Structure as: Legal Issue → Plain English Explanation → Legal Authority → Practical Implication\n" ++
  "- Focus on foundational legal concepts before complex doctrines\n" ++
  "- Make it comprehensive yet accessible - aim for completeness within simplicity"

/-- The system-prompt text between the simple-mode block and the source count. -/
def sysPromptMid : String :=
  "\n" ++
  "🎯 **ANSWER STRUCTURE (Follow this template):**\n" ++
  "1. **Legal Issue/Question**: Brief statement of the legal question (1-2 sentences)\n" ++
  "2. **Applicable Law**: Relevant statutes, articles, sections (numbered list)\n" ++
  "3. **Judicial Precedents**: Case law with citations (bullets, bold case names)\n" ++
  "   - Include: Case name, citation, court, year\n" ++
  "   - Extract: Ratio decidendi, key holdings, principles established\n" ++
  "4. **Legal Reasoning**: Analysis applying law to facts\n" ++
  "5. **Conclusion**: Summary of legal position\n" ++
  "6. **Source References**: Cite documents clearly with [Source X] notation\n" ++
  "7. **⚠️ Verification Disclaimer**: \"Please verify this legal analysis from official law reports before relying on it in court.\"\n" ++
  "\n" ++
  "⚖️ **TONE:**\n" ++
  "- Professional and authoritative, yet clear\n" ++
  "- Minimize legalese when possible - prioritize clarity\n" ++
  "- Use legal precision without unnecessary jargon\n" ++
  "- Objective and analytical\n" ++
  "\n" ++
  "🚨 **CRITICAL ANTI-HALLUCINATION SAFEGUARDS:**\n" ++
  "- If a case name is not explicitly in the sources, DO NOT cite it\n" ++
  "- If a legal provision is not in the sources, DO NOT reference it\n" ++
  "- If unsure about a legal principle, preface with \"Based on available documents...\"\n" ++
  "- NEVER fabricate citations, judges\x27 names, or case facts\n" ++
  "- If sources are insufficient, explicitly state: \"The available documents do not contain sufficient information on...\"\n" ++
  "\n" ++
  "AVAILABLE SOURCES ("

/-- The system-prompt text between the source count and the context. -/
def sysPromptTail : String := " passages from legal documents):\n"

/-- The full system prompt of `generateResponseWithFallback`. -/
def systemPromptFor (needsSimple : Bool) (chunkCount : Nat) (context : String) : String :=
  sysPromptHead ++ (if needsSimple then simpleModeBlock else "") ++ sysPromptMid
    ++ toString chunkCount ++ sysPromptTail ++ context

/-- The user prompt of `generateResponseWithFallback`. -/
def userPromptFor (needsSimple : Bool) (question : String) : String :=
  "LEGAL QUESTION: " ++ question ++ "\n\nCreate a "
    ++ (if needsSimple then "comprehensive yet simple, well-structured"
        else "thorough and well-organized")
    ++ " legal analysis using ONLY the sources above. Follow the formatting requirements exactly. Use markdown formatting, numbered lists for statutes, bullet points for case law, and clear section headers. Include [Source X] citations after key legal points. End with the verification disclaimer."

/-- The PDF normalization test: declared type (lower-cased) is `pdf` or
`application/pdf`, or the file path (when truthy) ends in `.pdf`. -/
def isPdfType (fileType0 : String) (fp : Option String) : Bool :=
  jsToLower fileType0 = "pdf" || jsToLower fileType0 = "application/pdf" ||
  (match fp with
   | some p => p ≠ "" && strEndsWith (jsToLower p) ".pdf"
   | none => false)

/-- One citation of the success payload, from the chunk at prompt index
`index`: a 1-hour signed URL when a file path is present (signing failure
leaves it absent), normalized file type, 200-character quote with an
ellipsis marker exactly when the content is longer, and the full content. -/
def buildCitation (env : Env) (index : Nat) (chunk : Chunk) : Citation :=
  let fileUrl : Option String :=
    match chunk.file_path with
    | some p => if p = "" then none else env.signUrl p 3600
    | none => none
  let fileType0 := jsStrOr chunk.file_type "text"
  let fileType := if isPdfType fileType0 chunk.file_path then "application/pdf" else fileType0
  { document_id := chunk.document_id,
    document_title := chunk.document_title,
    master_name := chunk.master_name,
    page_number := chunk.page_number,
    chunk_id := chunk.id,
    quote := strTake chunk.content 200 ++ (if chunk.content.length > 200 then "..." else ""),
    full_content := chunk.content,
    similarity := chunk.similarity,
    position_in_document := jsNatOr chunk.position index,
    chapter := jsStrOrNull chunk.chapter,
    youtube_video_id := jsStrOrNull chunk.youtube_video_id,
    start_timestamp := jsNatOrNull chunk.start_timestamp,
    end_timestamp := jsNatOrNull chunk.end_timestamp,
    file_url := fileUrl,
    file_type := some fileType }

/-- The citations of a success, one per chunk in prompt order, starting at
index `idx`. -/
def buildCitations (env : Env) (idx : Nat) : List Chunk → List Citation
  | [] => []
  | c :: cs => buildCitation env idx c :: buildCitations env (idx + 1) cs

/-- The success `RAGResponse` assembled inside the fallback loop once model
`model` answered with `data`. -/
def buildSuccess (env : Env) (model : String) (data : CompletionData) (chunks : List Chunk)
    (embeddingTokens : Nat) (sys usr : String) : RAGResponse :=
  let rawAnswer := data.content
  let parsed := parseModelResponse rawAnswer
  let promptTokens := jsNatOr data.prompt_tokens 0
  let completionTokens := jsNatOr data.completion_tokens 0
  let totalTokens := jsNatOr data.total_tokens (promptTokens + completionTokens)
  let grandTotal := embeddingTokens + totalTokens
  let costEstimate := estimateCost model grandTotal
  { success := true,
    answer := some parsed.answer,
    summary := some parsed.summary,
    citations := some (buildCitations env 0 chunks),
    reading_time := some parsed.readingTime,
    metadata := some { model := model, chunkCount := chunks.length,
                       embeddingModel := "text-embedding-3-small",
                       totalTokens := some totalTokens },
    debug := some { systemPrompt := sys, userPrompt := usr },
    rawResponse := some rawAnswer,
    tokenUsage := some { embeddingTokens := embeddingTokens, promptTokens := promptTokens,
                         completionTokens := completionTokens, totalTokens := totalTokens,
                         grandTotal := grandTotal },
    estimatedCost := some costEstimate }

/-- Outcome of the model fallback loop: the failed attempts in order, the
models invoked in order, and either the success response or the terminal
`throw new Error(...)` message. -/
structure ChainOut where
  failures : List ModelAttempt
  tried : List String
  result : Except String RAGResponse
deriving Repr

/-- The `for (const model of this.modelPriority)` loop: each failing model
is recorded and the loop continues; the first success returns; exhaustion
throws with the last attempt's error embedded. -/
def runChain (env : Env) (sys usr : String) (chunks : List Chunk) (embeddingTokens : Nat) :
    List String → Option String → ChainOut
  | [], lastError =>
    { failures := [], tried := [],
      result := Except.error ("All models failed. Last error: " ++ lastError.getD "undefined") }
  | m :: ms, _lastError =>
    match env.completion m with
    | Except.ok data =>
      { failures := [], tried := [m],
        result := Except.ok (buildSuccess env m data chunks embeddingTokens sys usr) }
    | Except.error e =>
      let r := runChain env sys usr chunks embeddingTokens ms (some e)
      { failures := { model := m, error := e } :: r.failures, tried := m :: r.tried,
        result := r.result }

/-- `generateResponseWithFallback(question, chunks, embeddingTokens)`: build
the grounding prompts, then try the model priority list in order. -/
def generateResponseWithFallback (env : Env) (question : String) (chunks : List Chunk)
    (embeddingTokens : Nat) : ChainOut :=
  let context := buildContext chunks
  let needsSimple := needsSimpleTest question
  let sys := systemPromptFor needsSimple chunks.length context
  let usr := userPromptFor needsSimple question
  runChain env sys usr chunks embeddingTokens modelPriority none

/-- `logAIUsage(...)`: the usage record built for the logging sink. Insert
failure is swallowed by the source, so the record itself is a pure function
of the inputs; wall-clock `created_at` is outside the model. -/
def logAIUsage (lawyerId : Option String) (query model : String) (tokenCount : Nat)
    (response : Option String) (documents : Option (List String)) (costUSD : Option ℚ) :
    UsageLogEntry :=
  let promptTokens := tokenCount
  let completionTokens :=
    match response with
    | some r => if r = "" then 0 else (r.length + 3) / 4
    | none => 0
  let totalTokens := promptTokens + completionTokens
  let estimatedCost := jsRatOr costUSD (estimateCost model totalTokens)
  { lawyer_id := lawyerId,
    model := model,
    prompt_tokens := promptTokens,
    completion_tokens := completionTokens,
    total_tokens := totalTokens,
    estimated_cost := estimatedCost,
    operation_type := "rag_query",
    query_text := query,
    documents_used := documents.getD [],
    response_preview :=
      match response with
      | some r => if r = "" then none else some (strTake r 500)
      | none => none }

/-- Scoped-empty failure message for an explicit document selection. -/
def docScopeEmptyMessage : String :=
  "⚖️ I could not find relevant information in the selected legal documents to answer your question. Please try:\n- Asking a different legal question\n- Selecting additional documents\n- Rephrasing your question with different legal keywords"

/-- Scoped-empty failure message for an explicit category selection. -/
def masterScopeEmptyMessage : String :=
  "⚖️ I could not find relevant information from the selected legal category to answer your question. Please try:\n- Asking a different legal question\n- Selecting additional legal categories\n- Rephrasing your question with different legal keywords"

/-- Terminal failure message when even the fallback retrieval is empty. -/
def noInfoMessage : String :=
  "⚖️ I apologize, but I could not find relevant information in the available legal documents to answer your question. Please try rephrasing your question or ask about topics related to Indian law, case law, statutes, and judicial precedents available in the system."

/-- JS truthiness of `xs && xs.length > 0` for an optional list. -/
def scopeRequested (xs : Option (List String)) : Bool :=
  match xs with
  | none => false
  | some l => l.length > 0

/-- The per-variant search loop: each variant is embedded and searched; a
null result (search error) or an empty row set contributes nothing. -/
def collectChunks (env : Env) (queries : List String) : List Chunk :=
  queries.foldl
    (fun acc q =>
      match env.search (env.embed q).embedding with
      | some cs => if cs.isEmpty then acc else acc ++ cs
      | none => acc)
    []

/-- The retrieval pipeline of `askQuestion` after validation: pooled variant
search results, deduplicated and ranked, narrowed by the two scope filters,
then enriched with document metadata. -/
def enhancedOf (env : Env) (question : String) (opts : AskOptions) : List Chunk :=
  enhanceChunksWithDocumentContext env
    (masterScopeFilter env opts.selectedMasters
      (docScopeFilter opts.selectedDocumentIds
        (deduplicateChunks (collectChunks env (generateSearchQueries question)))))

/-- `response.metadata?.model || 'unknown'`. -/
def respModel (resp : RAGResponse) : String :=
  jsStrOr (resp.metadata.map (fun md => md.model)) "unknown"

/-- `response.metadata?.totalTokens || 0`. -/
def respTotalTokens (resp : RAGResponse) : Nat :=
  jsNatOr (resp.metadata.bind (fun md => md.totalTokens)) 0

/-- The trace of the calls every post-validation run makes: the question
embedding, then one embedding and one search per variant. -/
def baseTrace (question : String) : Trace :=
  { embedCalls := question :: generateSearchQueries question,
    searchCalls := (generateSearchQueries question).length,
    completionCalls := [], fallbackCalled := false, loggedEntry := none }

/-- The surrounding `try/catch` of `askQuestion`: a thrown chain error is
caught and rendered as a tagged failure result. -/
def chainToResponse (out : ChainOut) : RAGResponse :=
  match out.result with
  | Except.ok resp => resp
  | Except.error e => { success := false, message := some ("🙏 An error occurred: " ++ e) }

/-- `askQuestion(question, options)` with the calls it makes: validation,
retrieval, scope handling with the scoped-empty terminal failures, the
unscoped fallback retrieval, the model fallback chain, and usage logging on
the main success path. -/
def askQuestion (env : Env) (question : String) (opts : AskOptions) : RAGResponse × Trace :=
  if (validateQuestion question).isValid then
    let embeddingResult := env.embed question
    let enhancedChunks := enhancedOf env question opts
    if enhancedChunks.isEmpty then
      if scopeRequested opts.selectedDocumentIds then
        ({ success := false, message := some docScopeEmptyMessage }, baseTrace question)
      else if scopeRequested opts.selectedMasters then
        ({ success := false, message := some masterScopeEmptyMessage }, baseTrace question)
      else
        let fallbackChunks := getFallbackChunks env
        if fallbackChunks.isEmpty then
          ({ success := false, message := some noInfoMessage },
           { baseTrace question with fallbackCalled := true })
        else
          let out := generateResponseWithFallback env question fallbackChunks
            embeddingResult.tokenCount
          (chainToResponse out,
           { baseTrace question with fallbackCalled := true, completionCalls := out.tried })
    else
      let out := generateResponseWithFallback env question enhancedChunks
        embeddingResult.tokenCount
      match out.result with
      | Except.error e =>
        ({ success := false, message := some ("🙏 An error occurred: " ++ e) },
         { baseTrace question with completionCalls := out.tried })
      | Except.ok resp =>
        let documentsUsed := dedupStrings (enhancedChunks.map (fun c => c.document_title))
        let entry := logAIUsage (jsStrOrNull (jsStrOrOpt opts.lawyerId opts.preceptorId)) question
          (respModel resp) (embeddingResult.tokenCount + respTotalTokens resp) resp.answer
          (some documentsUsed) none
        (resp,
         { baseTrace question with completionCalls := out.tried, loggedEntry := some entry })
  else
    ({ success := false, message := (validateQuestion question).message }, Trace.empty)

/-- Claim C1: the spec says a zero-rate model is estimated at cost 0 for
every token count. The code computes `costPer1M[model] || 1.0`, and JS `||`
treats the configured rate `0` as falsy, so both zero-rate models are billed
at the default rate instead: at one million tokens the table holds rate `0`
yet the estimate is `1`, not `0`. -/
theorem claim_C1_zero_rate_billed_at_default_rate :
    costPer1M "google/gemini-2.0-flash-exp:free" = some 0 ∧
    costPer1M "meta-llama/llama-3.1-8b-instruct:free" = some 0 ∧
    estimateCost "google/gemini-2.0-flash-exp:free" 1000000 = 1 ∧
    estimateCost "meta-llama/llama-3.1-8b-instruct:free" 1000000 = 1 := by
  have h1 : costPer1M "google/gemini-2.0-flash-exp:free" = some 0 := by decide
  have h2 : costPer1M "meta-llama/llama-3.1-8b-instruct:free" = some 0 := by decide
  refine ⟨h1, h2, ?_, ?_⟩
  · rw [estimateCost, h1]
    norm_num [jsRatOr]
  · rw [estimateCost, h2]
    norm_num [jsRatOr]

/-- Every chunk kept by the dedup filter is outside `seen` and is the first
occurrence of its id in the input. -/
theorem dedupFirstAux_find (l : List Chunk) :
    ∀ (seen : List String) (c : Chunk), c ∈ dedupFirstAux l seen →
      c.id ∉ seen ∧ l.find? (fun x => x.id == c.id) = some c := by
  induction l with
  | nil =>
    intro seen c h
    simp [dedupFirstAux] at h
  | cons x xs ih =>
    intro seen c h
    rw [dedupFirstAux] at h
    by_cases hx : x.id ∈ seen
    · rw [if_pos hx] at h
      obtain ⟨hns, hf⟩ := ih seen c h
      have hne : (x.id == c.id) = false := by
        rw [beq_eq_false_iff_ne]
        intro he
        exact hns (he ▸ hx)
      refine ⟨hns, ?_⟩
      rw [List.find?_cons_of_neg _ (by simp [hne]), hf]
    · rw [if_neg hx] at h
      rcases List.mem_cons.mp h with rfl | h2
      · exact ⟨hx, List.find?_cons_of_pos _ (by simp)⟩
      · obtain ⟨hns, hf⟩ := ih (x.id :: seen) c h2
        have hcx : c.id ≠ x.id := fun he => hns (by simp [he])
        have hns2 : c.id ∉ seen := fun hc => hns (by simp [hc])
        refine ⟨hns2, ?_⟩
        rw [List.find?_cons_of_neg _ (by simp [Ne.symm hcx]), hf]

/-- Every input id outside `seen` survives the dedup filter. -/
theorem dedupFirstAux_complete (l : List Chunk) :
    ∀ (seen : List String) (c : Chunk), c ∈ l → c.id ∉ seen →
      ∃ c2 ∈ dedupFirstAux l seen, c2.id = c.id := by
  induction l with
  | nil =>
    intro seen c h
    simp at h
  | cons x xs ih =>
    intro seen c h hns
    rw [dedupFirstAux]
    by_cases hx : x.id ∈ seen
    · rw [if_pos hx]
      rcases List.mem_cons.mp h with rfl | h2
      · exact absurd hx hns
      · exact ih seen c h2 hns
    · rw [if_neg hx]
      rcases List.mem_cons.mp h with rfl | h2
      · exact ⟨_, List.mem_cons_self _ _, rfl⟩
      · by_cases hcx : c.id = x.id
        · exact ⟨x, List.mem_cons_self x _, hcx.symm⟩
        · obtain ⟨c2, hc2, he⟩ := ih (x.id :: seen) c h2 (by simp [hcx, hns])
          exact ⟨c2, List.mem_cons_of_mem x hc2, he⟩

/-- The dedup filter emits pairwise-distinct ids, all outside `seen`. -/
theorem dedupFirstAux_nodup (l : List Chunk) :
    ∀ seen : List String,
      (∀ c ∈ dedupFirstAux l seen, c.id ∉ seen) ∧
      ((dedupFirstAux l seen).map (fun c => c.id)).Nodup := by
  induction l with
  | nil =>
    intro seen
    simp [dedupFirstAux]
  | cons x xs ih =>
    intro seen
    rw [dedupFirstAux]
    by_cases hx : x.id ∈ seen
    · rw [if_pos hx]
      exact ih seen
    · rw [if_neg hx]
      obtain ⟨hout, hnd⟩ := ih (x.id :: seen)
      constructor
      · intro c hc
        rcases List.mem_cons.mp hc with rfl | h2
        · exact hx
        · intro hcs
          exact hout c h2 (by simp [hcs])
      · rw [List.map_cons, List.nodup_cons]
        refine ⟨?_, hnd⟩
        intro hmem
        obtain ⟨c, hc, he⟩ := List.mem_map.mp hmem
        exact hout c hc (by simp [he])

/-- The spec example pool entry `{id:"a", sim:0.4}`. -/
def dedupExA1 : Chunk :=
  { id := "a", document_id := "d", document_title := "T", master_name := "M",
    content := "c", similarity := some (mkRat 2 5) }

/-- The spec example pool entry `{id:"b", sim:0.9}`. -/
def dedupExB : Chunk :=
  { id := "b", document_id := "d", document_title := "T", master_name := "M",
    content := "c", similarity := some (mkRat 9 10) }

/-- The spec example pool entry `{id:"a", sim:0.99}`. -/
def dedupExA2 : Chunk :=
  { id := "a", document_id := "d", document_title := "T", master_name := "M",
    content := "c", similarity := some (mkRat 99 100) }

/-- Claim C3: `deduplicateChunks` keeps exactly the first occurrence of each
chunk id (each survivor is the pool's first sighting of its id, every pooled
id survives, and no id appears twice) and the survivors come out sorted
descending by `similarity || 0`; on the spec's pool
`[{a,0.4}, {b,0.9}, {a,0.99}]` it returns `[{b,0.9}, {a,0.4}]`. -/
theorem claim_C3_dedup_keeps_first_occurrence_sorted_desc :
    (∀ pool : List Chunk,
      (∀ c ∈ deduplicateChunks pool, pool.find? (fun x => x.id == c.id) = some c) ∧
      (∀ c ∈ pool, ∃ c2 ∈ deduplicateChunks pool, c2.id = c.id) ∧
      ((deduplicateChunks pool).map (fun c => c.id)).Nodup ∧
      List.Sorted simGE (deduplicateChunks pool)) ∧
    (mkRat 2 5 = 0.4 ∧ mkRat 9 10 = 0.9 ∧ mkRat 99 100 = 0.99) ∧
    deduplicateChunks [dedupExA1, dedupExB, dedupExA2] = [dedupExB, dedupExA1] := by
  refine ⟨?_, ⟨by norm_num [mkRat], by norm_num [mkRat], by norm_num [mkRat]⟩, by decide⟩
  intro pool
  have hperm := List.perm_insertionSort simGE (dedupFirstAux pool [])
  refine ⟨?_, ?_, ?_, List.sorted_insertionSort simGE _⟩
  · intro c hc
    rw [deduplicateChunks] at hc
    exact (dedupFirstAux_find pool [] c (hperm.mem_iff.mp hc)).2
  · intro c hc
    obtain ⟨c2, h2, he⟩ := dedupFirstAux_complete pool [] c hc (by simp)
    rw [deduplicateChunks]
    exact ⟨c2, hperm.mem_iff.mpr h2, he⟩
  · rw [deduplicateChunks]
    exact ((hperm.map (fun c => c.id)).nodup_iff).mpr (dedupFirstAux_nodup pool []).2

/-- Rebuilding a string from its characters is the identity. -/
theorem strMk_data (s : String) : String.mk s.data = s := by
  cases s
  rfl

/-- When the separator occurs nowhere, the split scan returns one part:
the accumulator followed by the rest. -/
theorem splitSepFuel_no_sep :
    ∀ (fuel : Nat) (l acc : List Char), l.length ≤ fuel →
      containsChars sepChars l = false →
      splitSepFuel fuel acc l = [acc.reverse ++ l] := by
  intro fuel
  induction fuel with
  | zero =>
    intro l acc _ _
    rw [splitSepFuel]
  | succ fuel ih =>
    intro l acc hlen hns
    cases l with
    | nil =>
      rw [splitSepFuel]
      simp
    | cons c cs =>
      rw [containsChars] at hns
      have h1 : isPrefixChars sepChars (c :: cs) = false := by
        rcases Bool.or_eq_false_iff.mp hns with ⟨h1, _⟩
        exact h1
      have h2 : containsChars sepChars cs = false := by
        rcases Bool.or_eq_false_iff.mp hns with ⟨_, h2⟩
        exact h2
      rw [splitSepFuel, if_neg (by simp [h1]),
        ih cs (c :: acc) (by simpa using Nat.le_of_succ_le_succ hlen) h2]
      simp

/-- JS `split` on a text not containing the separator yields that one text. -/
theorem jsSplitSep_no_sep (s : String) (h : strContains s SECTION_SEPARATOR = false) :
    jsSplitSep s = [s] := by
  have h2 : containsChars sepChars s.data = false := h
  rw [jsSplitSep, splitSepFuel_no_sep s.data.length s.data [] le_rfl h2]
  simp [strMk_data]

/-- Claim C8: on raw completion text without the separator token,
`parseModelResponse` (a total function, so it never raises) returns the
whole trimmed input as the answer and, as the summary, the first paragraph
(trimmed) when it is under 500 characters, else the fixed placeholder; the
spec's degradation example parses accordingly. -/
theorem claim_C8_parse_degrades_without_separator (raw : String)
    (h : strContains raw SECTION_SEPARATOR = false) :
    (parseModelResponse raw).answer = jsTrim raw ∧
    (parseModelResponse raw).summary =
      (if (firstParagraph (jsTrim raw)).length < 500 then jsTrim (firstParagraph (jsTrim raw))
       else "Please refer to the detailed answer below.") ∧
    parseModelResponse "No separator here.\n\nMore text." =
      { summary := "No separator here.", answer := "No separator here.\n\nMore text.",
        readingTime := { summary := "< 1 min read", detail := "< 1 min read" } } := by
  have hsplit : jsSplitSep raw = [raw] := jsSplitSep_no_sep raw h
  refine ⟨?_, ?_, by decide⟩ <;> simp [parseModelResponse, hsplit]

/-- Witness for C8 at the spec's degradation example. -/
theorem claim_C8_witness :
    (parseModelResponse "No separator here.\n\nMore text.").answer =
      jsTrim "No separator here.\n\nMore text." ∧
    (parseModelResponse "No separator here.\n\nMore text.").summary =
      (if (firstParagraph (jsTrim "No separator here.\n\nMore text.")).length < 500 then
        jsTrim (firstParagraph (jsTrim "No separator here.\n\nMore text."))
       else "Please refer to the detailed answer below.") ∧
    parseModelResponse "No separator here.\n\nMore text." =
      { summary := "No separator here.", answer := "No separator here.\n\nMore text.",
        readingTime := { summary := "< 1 min read", detail := "< 1 min read" } } :=
  claim_C8_parse_degrades_without_separator "No separator here.\n\nMore text." (by decide)

/-- Claim C6: a question whose trimmed length is below 5 or above 5000 is
rejected as a failure result, with no embedding, search, completion,
fallback or logging call made. -/
theorem claim_C6_length_rejected_without_any_call (env : Env) (q : String) (opts : AskOptions)
    (h : (jsTrim q).length < 5 ∨ (jsTrim q).length > 5000) :
    (askQuestion env q opts).1.success = false ∧ (askQuestion env q opts).2 = Trace.empty := by
  have hv : (validateQuestion q).isValid = false := by
    rw [validateQuestion]
    rcases h with h | h
    · rw [if_pos h]
    · rw [if_neg (by omega), if_pos h]
  simp [askQuestion, hv]

/-- An environment in which every collaborator is inert. -/
def envTrivial : Env :=
  { embed := fun _ => { embedding := [0], tokenCount := 1 },
    search := fun _ => none,
    mastersLookup := fun _ => none,
    docsLookup := fun _ => none,
    fallbackRows := none,
    completion := fun _ => Except.error "down",
    signUrl := fun _ _ => none }

/-- Witness for C6 at the two-character question `"hi"`. -/
theorem claim_C6_witness :
    (askQuestion envTrivial "hi" {}).1.success = false ∧
    (askQuestion envTrivial "hi" {}).2 = Trace.empty :=
  claim_C6_length_rejected_without_any_call envTrivial "hi" {} (Or.inl (by decide))

/-- Claim C2: when a non-empty document or category allow-list was supplied
and the enriched chunk set is empty, `askQuestion` fails with the matching
scope-specific message and `getFallbackChunks` is never invoked. -/
theorem claim_C2_scoped_empty_fails_without_fallback (env : Env) (q : String)
    (opts : AskOptions)
    (hv : (validateQuestion q).isValid = true)
    (hempty : enhancedOf env q opts = [])
    (hscope : scopeRequested opts.selectedDocumentIds = true ∨
      scopeRequested opts.selectedMasters = true) :
    (askQuestion env q opts).1.success = false ∧
    (askQuestion env q opts).2.fallbackCalled = false ∧
    ((askQuestion env q opts).1.message = some docScopeEmptyMessage ∨
     (askQuestion env q opts).1.message = some masterScopeEmptyMessage) := by
  by_cases hd : scopeRequested opts.selectedDocumentIds = true
  · simp [askQuestion, hv, hempty, hd, baseTrace]
  · have hm : scopeRequested opts.selectedMasters = true := hscope.resolve_left hd
    simp [askQuestion, hv, hempty, hd, hm, baseTrace]

/-- Witness environment and inputs for C2: retrieval finds nothing and a
document allow-list was supplied. -/
def optsDocScope : AskOptions := { selectedDocumentIds := some ["d1"] }

/-- Witness for C2: scoped question with empty retrieval fails with the
document-scope message and no fallback. -/
theorem claim_C2_witness :
    (askQuestion envTrivial "What is habeas corpus" optsDocScope).1.success = false ∧
    (askQuestion envTrivial "What is habeas corpus" optsDocScope).2.fallbackCalled = false ∧
    ((askQuestion envTrivial "What is habeas corpus" optsDocScope).1.message =
        some docScopeEmptyMessage ∨
     (askQuestion envTrivial "What is habeas corpus" optsDocScope).1.message =
        some masterScopeEmptyMessage) :=
  claim_C2_scoped_empty_fails_without_fallback envTrivial "What is habeas corpus" optsDocScope
    (by decide) (by decide) (Or.inl (by decide))

/-- Claim C10: with a non-empty category list, the category filter passes
the chunks through untouched whenever the lookup returned no data or the
chunk set was already empty, and filters by the returned id set exactly when
the lookup returned a row payload for a non-empty chunk set. -/
theorem claim_C10_category_filter_needs_lookup_rows (env : Env) (ms : List String)
    (chunks : List Chunk) (hms : ms.length > 0) :
    ((env.mastersLookup ms = none ∨ chunks = []) →
      masterScopeFilter env (some ms) chunks = chunks) ∧
    (∀ documents, env.mastersLookup ms = some documents → chunks ≠ [] →
      masterScopeFilter env (some ms) chunks =
        chunks.filter (fun c => (documents.map (fun d => d.id)).contains c.document_id)) := by
  constructor
  · rintro (hnone | rfl)
    · rw [masterScopeFilter]
      split
      · rw [hnone]
      · rfl
    · simp [masterScopeFilter]
  · intro documents hdoc hne
    have hlen : chunks.length > 0 := List.length_pos.mpr hne
    simp [masterScopeFilter, hdoc, hms, hlen]

/-- Witness chunk for C10. -/
def chunkW : Chunk :=
  { id := "c1", document_id := "d1", document_title := "Doc", master_name := "Court",
    content := "Contents here." }

/-- Witness for C10: a null category lookup passes the chunks through. -/
theorem claim_C10_witness :
    ((envTrivial.mastersLookup ["Constitutional Law"] = none ∨ ([chunkW] : List Chunk) = []) →
      masterScopeFilter envTrivial (some ["Constitutional Law"]) [chunkW] = [chunkW]) ∧
    (∀ documents, envTrivial.mastersLookup ["Constitutional Law"] = some documents →
      ([chunkW] : List Chunk) ≠ [] →
      masterScopeFilter envTrivial (some ["Constitutional Law"]) [chunkW] =
        [chunkW].filter (fun c => (documents.map (fun d => d.id)).contains c.document_id)) :=
  claim_C10_category_filter_needs_lookup_rows envTrivial ["Constitutional Law"] [chunkW]
    (by decide)

/-- Chain behaviour when a prefix of models fails and the next one answers:
one failure is recorded per failing model, exactly the failing prefix plus
the succeeding model is invoked, and the result is the success built from
the succeeding model's payload. -/
theorem runChain_prefix_fail_then_success (env : Env) (sys usr : String) (chunks : List Chunk)
    (tok : Nat) (m : String) (R : List String) (d : CompletionData)
    (hok : env.completion m = Except.ok d) :
    ∀ F : List String, (∀ f ∈ F, ∃ e, env.completion f = Except.error e) →
      ∀ last : Option String,
        (runChain env sys usr chunks tok (F ++ m :: R) last).failures.length = F.length ∧
        (runChain env sys usr chunks tok (F ++ m :: R) last).tried = F ++ [m] ∧
        (runChain env sys usr chunks tok (F ++ m :: R) last).result =
          Except.ok (buildSuccess env m d chunks tok sys usr) := by
  intro F
  induction F with
  | nil =>
    intro _ last
    simp [runChain, hok]
  | cons f F2 ih =>
    intro hf last
    obtain ⟨e, he⟩ := hf f (List.mem_cons_self f F2)
    obtain ⟨ih1, ih2, ih3⟩ :=
      ih (fun g hg => hf g (List.mem_cons_of_mem f hg)) (some e)
    simp [runChain, he, ih1, ih2, ih3]

/-- Claim C4: over the fixed priority list, when the first `k` models fail
and the next succeeds, exactly `k` failures are recorded, the chain stops at
the first success, and the success metadata names the succeeding model. -/
theorem claim_C4_chain_stops_at_first_success (env : Env) (question : String)
    (chunks : List Chunk) (tok : Nat) (F : List String) (m : String) (R : List String)
    (d : CompletionData)
    (hsplit : modelPriority = F ++ m :: R)
    (hfail : ∀ f ∈ F, ∃ e, env.completion f = Except.error e)
    (hok : env.completion m = Except.ok d) :
    (generateResponseWithFallback env question chunks tok).failures.length = F.length ∧
    (generateResponseWithFallback env question chunks tok).tried = F ++ [m] ∧
    ∃ resp, (generateResponseWithFallback env question chunks tok).result = Except.ok resp ∧
      resp.success = true ∧ resp.metadata.map (fun md => md.model) = some m := by
  obtain ⟨h1, h2, h3⟩ := runChain_prefix_fail_then_success env
    (systemPromptFor (needsSimpleTest question) chunks.length (buildContext chunks))
    (userPromptFor (needsSimpleTest question) question) chunks tok m R d hok F hfail none
  have hg : generateResponseWithFallback env question chunks tok =
      runChain env (systemPromptFor (needsSimpleTest question) chunks.length (buildContext chunks))
        (userPromptFor (needsSimpleTest question) question) chunks tok modelPriority none := rfl
  rw [hg, hsplit]
  refine ⟨h1, h2, _, h3, ?_, ?_⟩ <;> simp [buildSuccess]

/-- Witness environment for C4: the first two priority models fail, the
third answers. -/
def envC4 : Env :=
  { envTrivial with
    completion := fun m =>
      if m = "x-ai/grok-4.1-fast" then Except.error "rate limited"
      else if m = "x-ai/grok-4-fast" then Except.error "server error"
      else if m = "x-ai/grok-4" then
        Except.ok { content := "Summary.---SECTION_SEPARATOR---Detail.",
                    total_tokens := some 42 }
      else Except.error "unreached" }

/-- Witness for C4: two failures recorded, chain stops at the third model,
whose id is reported in the metadata. -/
theorem claim_C4_witness :
    (generateResponseWithFallback envC4 "q" [chunkW] 5).failures.length =
      (["x-ai/grok-4.1-fast", "x-ai/grok-4-fast"] : List String).length ∧
    (generateResponseWithFallback envC4 "q" [chunkW] 5).tried =
      ["x-ai/grok-4.1-fast", "x-ai/grok-4-fast"] ++ ["x-ai/grok-4"] ∧
    ∃ resp, (generateResponseWithFallback envC4 "q" [chunkW] 5).result = Except.ok resp ∧
      resp.success = true ∧ resp.metadata.map (fun md => md.model) = some "x-ai/grok-4" :=
  claim_C4_chain_stops_at_first_success envC4 "q" [chunkW] 5
    ["x-ai/grok-4.1-fast", "x-ai/grok-4-fast"] "x-ai/grok-4"
    ["x-ai/grok-2-1212", "x-ai/grok-beta", "google/gemini-2.0-flash-exp:free",
     "anthropic/claude-3-haiku", "meta-llama/llama-3.1-8b-instruct:free"]
    { content := "Summary.---SECTION_SEPARATOR---Detail.", total_tokens := some 42 }
    rfl
    (by
      intro f hf
      simp only [List.mem_cons, List.mem_singleton] at hf
      rcases hf with rfl | rfl | h
      · exact ⟨"rate limited", rfl⟩
      · exact ⟨"server error", rfl⟩
      · simp at h)
    rfl

/-- Chain behaviour when every model fails: the thrown message embeds the
last model's error. -/
theorem runChain_all_fail (env : Env) (sys usr : String) (chunks : List Chunk) (tok : Nat)
    (errOf : String → String) :
    ∀ (L : List String) (hL : L ≠ []) (last : Option String),
      (∀ x ∈ L, env.completion x = Except.error (errOf x)) →
      (runChain env sys usr chunks tok L last).result =
        Except.error ("All models failed. Last error: " ++ errOf (L.getLast hL)) := by
  intro L
  induction L with
  | nil =>
    intro hL
    exact absurd rfl hL
  | cons x t ih =>
    intro hL last hall
    have hx := hall x (List.mem_cons_self x t)
    cases t with
    | nil =>
      simp [runChain, hx]
    | cons y t2 =>
      have hrest := ih (by simp) (some (errOf x))
        (fun z hz => hall z (List.mem_cons_of_mem x hz))
      have hgl : (x :: y :: t2).getLast hL = (y :: t2).getLast (by simp) :=
        List.getLast_cons (by simp)
      have step : (runChain env sys usr chunks tok (x :: y :: t2) last).result =
          (runChain env sys usr chunks tok (y :: t2) (some (errOf x))).result := by
        rw [runChain, hx]
      rw [hgl, step, hrest]

/-- Claim C5: when every model of the priority list fails on a run that
reaches the generation chain, `askQuestion` returns a tagged failure result
(no exception escapes) whose message embeds exactly the last attempted
model's error text. -/
theorem claim_C5_exhausted_chain_surfaces_last_error (env : Env) (q : String)
    (opts : AskOptions) (errOf : String → String)
    (hv : (validateQuestion q).isValid = true)
    (hne : enhancedOf env q opts ≠ [])
    (hfail : ∀ m ∈ modelPriority, env.completion m = Except.error (errOf m)) :
    (askQuestion env q opts).1.success = false ∧
    (askQuestion env q opts).1.message =
      some ("🙏 An error occurred: All models failed. Last error: "
        ++ errOf "meta-llama/llama-3.1-8b-instruct:free") := by
  have herr := runChain_all_fail env
    (systemPromptFor (needsSimpleTest q) (enhancedOf env q opts).length
      (buildContext (enhancedOf env q opts)))
    (userPromptFor (needsSimpleTest q) q) (enhancedOf env q opts) (env.embed q).tokenCount
    errOf modelPriority (by decide) none hfail
  have hlast : modelPriority.getLast (by decide) = "meta-llama/llama-3.1-8b-instruct:free" := by
    decide
  rw [hlast] at herr
  have hout : (generateResponseWithFallback env q (enhancedOf env q opts)
      (env.embed q).tokenCount).result =
      Except.error ("All models failed. Last error: "
        ++ errOf "meta-llama/llama-3.1-8b-instruct:free") := herr
  have hie : (enhancedOf env q opts).isEmpty = false := by
    cases h2 : enhancedOf env q opts with
    | nil => exact absurd h2 hne
    | cons a l => rfl
  have hmerge : ("🙏 An error occurred: " : String) ++ "All models failed. Last error: " =
      "🙏 An error occurred: All models failed. Last error: " := by decide
  simp only [askQuestion, hv, if_true, hie, Bool.false_eq_true, if_false, hout]
  constructor
  · trivial
  · rw [← String.append_assoc, hmerge]

/-- Witness environment for C5: retrieval finds a chunk and every completion
model fails with an error naming the model. -/
def envC5 : Env :=
  { envTrivial with
    search := fun _ => some [chunkW],
    docsLookup := fun _ => some [],
    completion := fun m => Except.error ("E-" ++ m) }

/-- Witness for C5: with every model failing, the run fails and the message
embeds the last model's error text. -/
theorem claim_C5_witness :
    (askQuestion envC5 "state the elements of adverse possession" {}).1.success = false ∧
    (askQuestion envC5 "state the elements of adverse possession" {}).1.message =
      some ("🙏 An error occurred: All models failed. Last error: "
        ++ ((fun m => "E-" ++ m) "meta-llama/llama-3.1-8b-instruct:free")) :=
  claim_C5_exhausted_chain_surfaces_last_error envC5
    "state the elements of adverse possession" {} (fun m => "E-" ++ m)
    (by decide) (by decide) (fun _ _ => rfl)

/-- Any success of the chain is the payload built from some model that the
completion oracle answered. -/
theorem runChain_ok_shape (env : Env) (sys usr : String) (chunks : List Chunk) (tok : Nat) :
    ∀ (L : List String) (last : Option String) (resp : RAGResponse),
      (runChain env sys usr chunks tok L last).result = Except.ok resp →
      ∃ m d, env.completion m = Except.ok d ∧
        resp = buildSuccess env m d chunks tok sys usr := by
  intro L
  induction L with
  | nil =>
    intro last resp h
    simp [runChain] at h
  | cons x t ih =>
    intro last resp h
    rw [runChain] at h
    cases hx : env.completion x with
    | ok d =>
      rw [hx] at h
      simp only [Except.ok.injEq] at h
      exact ⟨x, d, hx, h.symm⟩
    | error e =>
      rw [hx] at h
      exact ih (some e) resp h

/-- One citation is built per chunk. -/
theorem buildCitations_length (env : Env) : ∀ (l : List Chunk) (base : Nat),
    (buildCitations env base l).length = l.length := by
  intro l
  induction l with
  | nil => intro base; rfl
  | cons c cs ih =>
    intro base
    simp [buildCitations, ih]

/-- The citation at index `i` is built from the chunk at index `i`, with the
running prompt index. -/
theorem buildCitations_getElem (env : Env) : ∀ (l : List Chunk) (base i : Nat),
    (buildCitations env base l)[i]? = (l[i]?).map (fun c => buildCitation env (base + i) c) := by
  intro l
  induction l with
  | nil =>
    intro base i
    simp [buildCitations]
  | cons c cs ih =>
    intro base i
    cases i with
    | zero => simp [buildCitations]
    | succ j =>
      rw [buildCitations, List.getElem?_cons_succ, List.getElem?_cons_succ, ih (base + 1) j]
      have harith : base + 1 + j = base + (j + 1) := by omega
      rw [harith]

/-- The source line of the chunk at index `i` is one of the context lines. -/
theorem sourceLines_mem : ∀ (l : List Chunk) (base i : Nat) (c : Chunk),
    l[i]? = some c → sourceLine (base + i) c ∈ sourceLines base l := by
  intro l
  induction l with
  | nil =>
    intro base i c h
    simp at h
  | cons x xs ih =>
    intro base i c h
    cases i with
    | zero =>
      rw [List.getElem?_cons_zero, Option.some.injEq] at h
      subst h
      simp [sourceLines]
    | succ j =>
      rw [List.getElem?_cons_succ] at h
      have hmem := ih (base + 1) j c h
      have harith : base + 1 + j = base + (j + 1) := by omega
      rw [harith] at hmem
      exact List.mem_cons_of_mem _ hmem

/-- A list is a prefix of itself followed by anything. -/
theorem isPrefixChars_self_append : ∀ (p t : List Char), isPrefixChars p (p ++ t) = true := by
  intro p
  induction p with
  | nil => intro t; rfl
  | cons c cs ih =>
    intro t
    simp [isPrefixChars, ih]

/-- A text contains any of its own prefixes. -/
theorem containsChars_of_prefix : ∀ (p t : List Char), containsChars p (p ++ t) = true := by
  intro p t
  cases p with
  | nil =>
    cases t with
    | nil => rfl
    | cons c cs => simp [containsChars, isPrefixChars]
  | cons c cs =>
    rw [List.cons_append, containsChars]
    have h1 : isPrefixChars (c :: cs) (c :: (cs ++ t)) = true :=
      isPrefixChars_self_append (c :: cs) t
    rw [h1]
    simp

/-- Containment is preserved by prepending text. -/
theorem containsChars_append_left (needle : List Char) : ∀ (s t : List Char),
    containsChars needle t = true → containsChars needle (s ++ t) = true := by
  intro s
  induction s with
  | nil => intro t h; exact h
  | cons c cs ih =>
    intro t h
    rw [List.cons_append, containsChars, ih t h]
    simp

/-- A joined list of parts contains each part. -/
theorem containsChars_joinSep (sep : String) : ∀ (lines : List String) (x : String),
    x ∈ lines → containsChars x.data (joinSep sep lines).data = true := by
  intro lines
  induction lines with
  | nil =>
    intro x h
    simp at h
  | cons s rest ih =>
    intro x h
    cases rest with
    | nil =>
      rw [List.mem_singleton] at h
      subst h
      have hj : joinSep sep [x] = x := rfl
      rw [hj]
      have := containsChars_of_prefix x.data []
      simpa using this
    | cons s2 rest2 =>
      have hj : joinSep sep (s :: s2 :: rest2) = s ++ sep ++ joinSep sep (s2 :: rest2) := rfl
      rw [hj]
      rcases List.mem_cons.mp h with rfl | h2
      · rw [String.data_append, String.data_append, List.append_assoc]
        exact containsChars_of_prefix x.data _
      · rw [String.data_append, String.data_append]
        exact containsChars_append_left x.data _ _ (ih x h2)

/-- The system prompt contains whatever its context part contains. -/
theorem strContains_sysPrompt (needsSimple : Bool) (cnt : Nat) (ctx : String) (x : String)
    (h : containsChars x.data ctx.data = true) :
    strContains (systemPromptFor needsSimple cnt ctx) x = true := by
  rw [strContains, systemPromptFor, String.data_append]
  exact containsChars_append_left x.data _ ctx.data h

/-- Claim C9: every successful generation carries one citation per prompt
chunk, aligned index-for-index with the prompt's `[Source N]` enumeration
(the source line of chunk `i` appears in the system prompt, and citation `i`
is built from chunk `i`), with `quote` the first 200 characters of the
content plus an ellipsis marker exactly when the content is longer, and
`full_content` the untruncated content. -/
theorem claim_C9_citations_align_with_prompt (env : Env) (question : String)
    (chunks : List Chunk) (tok : Nat) (resp : RAGResponse)
    (h : (generateResponseWithFallback env question chunks tok).result = Except.ok resp) :
    ∃ cits : List Citation, resp.citations = some cits ∧ cits.length = chunks.length ∧
      (∀ (i : Nat) (c : Chunk), chunks[i]? = some c →
        ∃ cit : Citation, cits[i]? = some cit ∧ cit.chunk_id = c.id ∧
          cit.full_content = c.content ∧
          cit.quote = strTake c.content 200 ++
            (if c.content.length > 200 then "..." else "")) ∧
      ∃ dbg : DebugPrompts, resp.debug = some dbg ∧
        (∀ (i : Nat) (c : Chunk), chunks[i]? = some c →
          strContains dbg.systemPrompt (sourceLine i c) = true) := by
  have hg : generateResponseWithFallback env question chunks tok =
      runChain env
        (systemPromptFor (needsSimpleTest question) chunks.length (buildContext chunks))
        (userPromptFor (needsSimpleTest question) question) chunks tok modelPriority none := rfl
  rw [hg] at h
  obtain ⟨m, d, _, rfl⟩ := runChain_ok_shape env _ _ chunks tok modelPriority none resp h
  refine ⟨buildCitations env 0 chunks, by simp [buildSuccess],
    buildCitations_length env chunks 0, ?_, ?_⟩
  · intro i c hc
    refine ⟨buildCitation env (0 + i) c, ?_, ?_, ?_, ?_⟩
    · rw [buildCitations_getElem env chunks 0 i, hc]
      rfl
    · simp [buildCitation]
    · simp [buildCitation]
    · simp [buildCitation]
  · refine ⟨⟨systemPromptFor (needsSimpleTest question) chunks.length (buildContext chunks),
      userPromptFor (needsSimpleTest question) question⟩,
      by simp [buildSuccess], ?_⟩
    intro i c hc
    apply strContains_sysPrompt
    have hmem : sourceLine (0 + i) c ∈ sourceLines 0 chunks := sourceLines_mem chunks 0 i c hc
    rw [Nat.zero_add] at hmem
    rw [buildContext]
    exact containsChars_joinSep "\n\n" (sourceLines 0 chunks) _ hmem

/-- A second witness chunk for C9. -/
def chunkW2 : Chunk :=
  { id := "c2", document_id := "d2", document_title := "Doc Two", master_name := "Court",
    content := "Other contents." }

/-- Witness environment for C9: the first model answers at once. -/
def envC9 : Env :=
  { envTrivial with
    completion := fun m =>
      if m = "x-ai/grok-4.1-fast" then
        Except.ok { content := "S---SECTION_SEPARATOR---D" }
      else Except.error "down" }

/-- The success payload the C9 witness run produces. -/
def respC9 : RAGResponse :=
  buildSuccess envC9 "x-ai/grok-4.1-fast" { content := "S---SECTION_SEPARATOR---D" }
    [chunkW, chunkW2] 3
    (systemPromptFor (needsSimpleTest "q") ([chunkW, chunkW2] : List Chunk).length
      (buildContext [chunkW, chunkW2]))
    (userPromptFor (needsSimpleTest "q") "q")

/-- Witness for C9 on a two-chunk success. -/
theorem claim_C9_witness :
    ∃ cits : List Citation, respC9.citations = some cits ∧
      cits.length = ([chunkW, chunkW2] : List Chunk).length ∧
      (∀ (i : Nat) (c : Chunk), ([chunkW, chunkW2] : List Chunk)[i]? = some c →
        ∃ cit : Citation, cits[i]? = some cit ∧ cit.chunk_id = c.id ∧
          cit.full_content = c.content ∧
          cit.quote = strTake c.content 200 ++
            (if c.content.length > 200 then "..." else "")) ∧
      ∃ dbg : DebugPrompts, respC9.debug = some dbg ∧
        (∀ (i : Nat) (c : Chunk), ([chunkW, chunkW2] : List Chunk)[i]? = some c →
          strContains dbg.systemPrompt (sourceLine i c) = true) :=
  claim_C9_citations_align_with_prompt envC9 "q" [chunkW, chunkW2] 3 respC9 rfl

/-- Claim C7 (amended): whenever a run hands a usage record to the logging
sink, its `prompt_tokens` is the question-embedding token count plus the
response's reported total tokens (the per-variant search embeddings are not
summed in), `completion_tokens` is the parsed answer's length divided by 4
rounded up, and `total_tokens` is their sum. -/
theorem claim_C7_amended_usage_record (env : Env) (q : String) (opts : AskOptions)
    (entry : UsageLogEntry)
    (h : (askQuestion env q opts).2.loggedEntry = some entry) :
    entry.prompt_tokens =
      (env.embed q).tokenCount + respTotalTokens (askQuestion env q opts).1 ∧
    entry.completion_tokens =
      (match (askQuestion env q opts).1.answer with
       | some a => if a = "" then 0 else (a.length + 3) / 4
       | none => 0) ∧
    entry.total_tokens = entry.prompt_tokens + entry.completion_tokens := by
  by_cases hv : (validateQuestion q).isValid
  · by_cases he : (enhancedOf env q opts).isEmpty
    · exfalso
      by_cases hd : scopeRequested opts.selectedDocumentIds
      · simp [askQuestion, hv, he, hd, baseTrace] at h
      · by_cases hm : scopeRequested opts.selectedMasters
        · simp [askQuestion, hv, he, hd, hm, baseTrace] at h
        · by_cases hf : (getFallbackChunks env).isEmpty
          · simp [askQuestion, hv, he, hd, hm, hf, baseTrace] at h
          · simp [askQuestion, hv, he, hd, hm, hf, baseTrace] at h
    · cases hres : (generateResponseWithFallback env q (enhancedOf env q opts)
          (env.embed q).tokenCount).result with
      | error e =>
        exfalso
        simp [askQuestion, hv, he, hres, baseTrace] at h
      | ok resp =>
        have h2 : entry = logAIUsage (jsStrOrNull (jsStrOrOpt opts.lawyerId opts.preceptorId)) q
            (respModel resp) ((env.embed q).tokenCount + respTotalTokens resp) resp.answer
            (some (dedupStrings ((enhancedOf env q opts).map (fun c => c.document_title))))
            none := by
          simp [askQuestion, hv, he, hres, baseTrace] at h
          exact h.symm
        have h1 : (askQuestion env q opts).1 = resp := by
          simp [askQuestion, hv, he, hres]
        rw [h1, h2]
        exact ⟨rfl, rfl, rfl⟩
  · exfalso
    simp [askQuestion, hv, Trace.empty] at h

/-- The C7 counterexample question. -/
def qC7 : String := "legal doctrine of res judicata"

/-- The C7 counterexample environment: the question embedding costs 10
tokens, each variant-search embedding 7, and the first model answers
reporting 100 total tokens. -/
def envC7 : Env :=
  { envTrivial with
    embed := fun s =>
      if s = qC7 then { embedding := [1], tokenCount := 10 }
      else { embedding := [2], tokenCount := 7 },
    search := fun _ => some [chunkW],
    docsLookup := fun _ => some [],
    completion := fun m =>
      if m = "x-ai/grok-4.1-fast" then
        Except.ok { content := "Ans.", total_tokens := some 100 }
      else Except.error "down" }

/-- Counterexample to C7 as stated: on this successful run the embedding
tokens consumed across all variant searches sum to 17, yet the usage record
hands `prompt_tokens = 110` (question-embedding tokens plus the model's
reported total) to the sink. -/
theorem claim_C7_counterexample :
    ((askQuestion envC7 qC7 {}).2.loggedEntry.map (fun e => e.prompt_tokens)) = some 110 ∧
    ((generateSearchQueries qC7).map (fun v => (envC7.embed v).tokenCount)).sum = 17 ∧
    (110 : Nat) ≠ 17 :=
  ⟨by decide, by decide, by decide⟩

/-- The usage record of the C7 counterexample run. -/
def entryC7 : UsageLogEntry :=
  logAIUsage none qC7 "x-ai/grok-4.1-fast" 110 (some "Ans.") (some ["Doc"]) none

/-- Witness for the amended C7 at the counterexample run. -/
theorem claim_C7_witness :
    entryC7.prompt_tokens =
      (envC7.embed qC7).tokenCount + respTotalTokens (askQuestion envC7 qC7 {}).1 ∧
    entryC7.completion_tokens =
      (match (askQuestion envC7 qC7 {}).1.answer with
       | some a => if a = "" then 0 else (a.length + 3) / 4
       | none => 0) ∧
    entryC7.total_tokens = entryC7.prompt_tokens + entryC7.completion_tokens :=
  claim_C7_amended_usage_record envC7 qC7 {} entryC7 rfl
